import Mathlib

/-
Shallow embedding of the travel-request Django application
(models.py, permissions.py, serializers.py, views.py).
Dates are modelled at calendar-date granularity as Nat; strings as String;
the persistence layer as a List of records; notification dispatch as a
list of Mail values returned by each operation.
-/

set_option linter.unusedVariables false

/-- Employee record (models.Employee merged with the linked auth User,
whose first_name, last_name fields the views read through the relation).
The manager field holds the id of another Employee, or none (SET_NULL). -/
structure Employee where
  id : Nat
  user_id : Nat
  is_manager : Bool
  manager : Option Nat
  employee_status : String
  first_name : String
  last_name : String
deriving Repr, DecidableEq

/-- Travel Request record (models.Request). The employee and manager
fields hold Employee ids, nullable (on_delete=SET_NULL). Status is stored
as the literal string of STATUS_CHOICES, as the CharField does. -/
structure Request where
  id : Nat
  employee : Option Nat
  manager : Option Nat
  purpose_of_travel : String
  mode_of_travel : String
  from_date : Nat
  to_date : Nat
  from_where : String
  to_where : String
  lodging : Bool
  lodging_info : Option String
  additional_request : Option String
  additional_info : Option String
  message_from_manager : Option String
  message_from_admin : Option String
  date_of_request : Nat
  date_of_approval : Option Nat
  date_of_rejection : Option Nat
  date_of_revert : Option Nat
  resubmission_request : Bool
  is_resubmitted : Bool
  status_of_request : String
deriving Repr, DecidableEq

/-- Authenticated principal (the Django request.user): authentication
flag, superuser flag, and the auth-user id the Employee profile links to. -/
structure Principal where
  is_authenticated : Bool
  is_superuser : Bool
  user_id : Nat
deriving Repr, DecidableEq

def STATUS_CHOICES : List String :=
  ["to_submit", "submitted", "rejected", "reverted", "approved", "closed"]

def MODE_CHOICES : List String :=
  ["flight", "train", "own vehicle", "ship"]

/-- Employee.objects.get(pk=eid): lookup of an employee by primary key. -/
def findEmployee (emps : List Employee) (eid : Nat) : Option Employee :=
  emps.find? (fun e => e.id == eid)

/-- Employee.objects.get(user=request.user): lookup of the Employee
profile attached to a principal. -/
def employeeOfUser (emps : List Employee) (p : Principal) : Option Employee :=
  emps.find? (fun e => e.user_id == p.user_id)

/-- Request.objects.get(pk=rid). -/
def findRequest (db : List Request) (rid : Nat) : Option Request :=
  db.find? (fun r => r.id == rid)

/-- Persisting instance.save(): the row with the same id is replaced. -/
def updateRequest (db : List Request) (r : Request) : List Request :=
  db.map (fun x => if x.id == r.id then r else x)

/-- permissions.IsAdmin: authenticated superuser. -/
def IsAdmin (p : Principal) : Bool :=
  p.is_authenticated && p.is_superuser

/-- permissions.IsManager: authenticated, with an Employee profile whose
is_manager flag is set. -/
def IsManager (emps : List Employee) (p : Principal) : Bool :=
  p.is_authenticated &&
    (match employeeOfUser emps p with
     | some e => e.is_manager
     | none => false)

/-- permissions.IsEmployee: authenticated, with an Employee profile whose
is_manager flag is not set. -/
def IsEmployee (emps : List Employee) (p : Principal) : Bool :=
  p.is_authenticated &&
    (match employeeOfUser emps p with
     | some e => !e.is_manager
     | none => false)

/-- Incoming writable payload for TravelSerializer (request.data for
create and PATCH). A field that is absent from the JSON body is none.
The employee and manager keys may appear in the body but the serializer
declares both fields read_only, so they are stripped before validation. -/
structure TravelPayload where
  employee : Option Nat := none
  manager : Option Nat := none
  purpose_of_travel : Option String := none
  mode_of_travel : Option String := none
  from_date : Option Nat := none
  to_date : Option Nat := none
  from_where : Option String := none
  to_where : Option String := none
  lodging : Option Bool := none
  lodging_info : Option String := none
  additional_request : Option String := none
  additional_info : Option String := none
  message_from_manager : Option String := none
  message_from_admin : Option String := none
  status_of_request : Option String := none
  date_of_approval : Option Nat := none
  date_of_rejection : Option Nat := none
  date_of_revert : Option Nat := none
deriving Repr, DecidableEq

/-- Read-only fields (employee, manager) never reach validated data:
DRF drops them from the incoming payload before validate runs. -/
def stripReadOnly (p : TravelPayload) : TravelPayload :=
  { p with employee := none, manager := none }

/-- TravelSerializer.validate, translated check for check. Python
truthiness: a date object is truthy when present; a missing key gives
None; an empty string and None are both falsy for lodging_info; the
employee and manager checks read the same dict. Returns true when no
ValidationError is raised. -/
def travelValidate (data : TravelPayload) : Bool :=
  -- if from_date and to_date and from_date >= to_date: raise
  (!(data.from_date.isSome && data.to_date.isSome &&
     decide (data.to_date.getD 0 ≤ data.from_date.getD 0))) &&
  -- if lodging and not lodging_info: raise
  (!((data.lodging == some true) && (data.lodging_info.getD "" == ""))) &&
  -- if employee and manager and employee == manager: raise
  (!(data.employee.isSome && data.manager.isSome &&
     data.employee == data.manager))

/-- Field-level choice validation DRF runs before validate: a supplied
mode_of_travel or status_of_request must be one of the model choices. -/
def choicesOk (p : TravelPayload) : Bool :=
  (match p.mode_of_travel with
   | none => true
   | some m => MODE_CHOICES.contains m) &&
  (match p.status_of_request with
   | none => true
   | some s => STATUS_CHOICES.contains s)

/-- Required fields on a non-partial serializer: the model fields with
neither a default nor blank/null (purpose, mode, dates, locations).
The date_of_request field is auto_now_add and never writable. -/
def requiredOk (p : TravelPayload) : Bool :=
  p.purpose_of_travel.isSome && p.mode_of_travel.isSome &&
  p.from_date.isSome && p.to_date.isSome &&
  p.from_where.isSome && p.to_where.isSome

/-- serializer.is_valid() for a partial=True update. -/
def isValidPartial (p : TravelPayload) : Bool :=
  choicesOk p && travelValidate p

/-- serializer.is_valid() for a create (no partial flag). -/
def isValidCreate (p : TravelPayload) : Bool :=
  requiredOk p && choicesOk p && travelValidate p

/-- serializer.save() on an existing instance with partial data: each
supplied writable field overwrites the stored one; employee, manager
(read_only) and date_of_request (auto_now_add) are untouched. -/
def applyPartial (r : Request) (p : TravelPayload) : Request :=
  { r with
    purpose_of_travel := p.purpose_of_travel.getD r.purpose_of_travel
    mode_of_travel := p.mode_of_travel.getD r.mode_of_travel
    from_date := p.from_date.getD r.from_date
    to_date := p.to_date.getD r.to_date
    from_where := p.from_where.getD r.from_where
    to_where := p.to_where.getD r.to_where
    lodging := p.lodging.getD r.lodging
    lodging_info :=
      match p.lodging_info with
      | none => r.lodging_info
      | some s => some s
    additional_request :=
      match p.additional_request with
      | none => r.additional_request
      | some s => some s
    additional_info :=
      match p.additional_info with
      | none => r.additional_info
      | some s => some s
    message_from_manager :=
      match p.message_from_manager with
      | none => r.message_from_manager
      | some s => some s
    message_from_admin :=
      match p.message_from_admin with
      | none => r.message_from_admin
      | some s => some s
    status_of_request := p.status_of_request.getD r.status_of_request
    date_of_approval :=
      match p.date_of_approval with
      | none => r.date_of_approval
      | some d => some d
    date_of_rejection :=
      match p.date_of_rejection with
      | none => r.date_of_rejection
      | some d => some d
    date_of_revert :=
      match p.date_of_revert with
      | none => r.date_of_revert
      | some d => some d }

/-- serializer.save(employee=..., manager=..., status_of_request=...) on
a create: validated payload fields fill the new row, model defaults fill
the rest, the save kwargs override employee, manager and status, and
auto_now_add stamps date_of_request with the creation date. -/
def createFromPayload (p : TravelPayload) (newId : Nat)
    (emp mgr : Option Nat) (status : String) (today : Nat) : Request :=
  { id := newId
    employee := emp
    manager := mgr
    purpose_of_travel := p.purpose_of_travel.getD ""
    mode_of_travel := p.mode_of_travel.getD ""
    from_date := p.from_date.getD 0
    to_date := p.to_date.getD 0
    from_where := p.from_where.getD ""
    to_where := p.to_where.getD ""
    lodging := p.lodging.getD false
    lodging_info := p.lodging_info
    additional_request := p.additional_request
    additional_info := p.additional_info
    message_from_manager := p.message_from_manager
    message_from_admin := p.message_from_admin
    date_of_request := today
    date_of_approval := p.date_of_approval
    date_of_rejection := p.date_of_rejection
    date_of_revert := p.date_of_revert
    resubmission_request := false
    is_resubmitted := false
    status_of_request := status }

/-- Outcome of a boundary call: a JSON success payload, a structured
error response with its HTTP status code, or an uncaught exception
escaping the view (a crash the framework turns into an opaque 500). -/
inductive Outcome (α : Type) where
  | ok : α → Outcome α
  | err : Nat → String → Outcome α
  | crash : String → Outcome α
deriving Repr, DecidableEq

/-- Notification handed to send_mail; the recipient is identified by the
Employee id whose linked user email is addressed. -/
structure Mail where
  subject : String
  message : String
  recipient : Nat
deriving Repr, DecidableEq

/-- Result of a state-changing view: response, the persisted store after
the call, and the mails dispatched during it. -/
structure ActionResult where
  response : Outcome String
  db : List Request
  mails : List Mail
deriving Repr, DecidableEq

/-- List-of-characters prefix test, helper for substring search. -/
def isPrefixChars : List Char → List Char → Bool
  | [], _ => true
  | _ :: _, [] => false
  | a :: as, b :: bs => a == b && isPrefixChars as bs

/-- List-of-characters substring test. -/
def containsChars (needle : List Char) : List Char → Bool
  | [] => needle.isEmpty
  | c :: cs => isPrefixChars needle (c :: cs) || containsChars needle cs

/-- Django icontains lookup: case-insensitive substring match. -/
def icontains (hay needle : String) : Bool :=
  containsChars needle.toLower.toList hay.toLower.toList

/-- Python truthiness of an optional query-parameter string: absent and
empty are both falsy. -/
def truthyStr (o : Option String) : Bool :=
  o.getD "" != ""

/-- Query parameters of the listing endpoints. The date bounds arrive as
strings and are parsed to calendar dates; none stands for an absent or
empty parameter. -/
structure QueryParams where
  status : Option String := none
  sort_by : Option String := none
  start_date : Option Nat := none
  end_date : Option Nat := none
  search_name : Option String := none
  purpose_of_travel : Option String := none
deriving Repr, DecidableEq

/-- Insertion into a list sorted by the boolean relation le. -/
def insertSorted (le : Request → Request → Bool) (x : Request) :
    List Request → List Request
  | [] => [x]
  | y :: ys => if le x y then x :: y :: ys else y :: insertSorted le x ys

/-- Sorting used to model queryset order_by. -/
def sortRequests (le : Request → Request → Bool) : List Request → List Request
  | [] => []
  | x :: xs => insertSorted le x (sortRequests le xs)

/-- order_by handling shared by the admin and manager listings: a leading
minus sign means descending, every leading minus is stripped (lstrip),
and an unrecognized field name leaves the order unchanged. -/
def applySortOption (sort_option : Option String) (l : List Request) :
    List Request :=
  match sort_option with
  | none => l
  | some s =>
    if s == "" then l
    else
      let descending := s.startsWith "-"
      let clean := s.dropWhile (fun c => c == '-')
      if clean == "date_of_request" || clean == "from_date" then
        let key : Request → Nat :=
          fun r => if clean == "from_date" then r.from_date else r.date_of_request
        if descending then
          sortRequests (fun a b => decide (key b ≤ key a)) l
        else
          sortRequests (fun a b => decide (key a ≤ key b)) l
      else l

/-- status query filter: data.filter(status_of_request=status_filter),
applied only when the parameter is truthy. -/
def filterStatus (q : QueryParams) (l : List Request) : List Request :=
  match q.status with
  | none => l
  | some s => if s == "" then l else l.filter (fun r => r.status_of_request == s)

/-- date_of_request range filter: both bounds give an inclusive range,
one bound gives an open-ended comparison. -/
def filterDates (q : QueryParams) (l : List Request) : List Request :=
  match q.start_date, q.end_date with
  | some a, some b =>
      l.filter (fun r => decide (a ≤ r.date_of_request) && decide (r.date_of_request ≤ b))
  | some a, none => l.filter (fun r => decide (a ≤ r.date_of_request))
  | none, some b => l.filter (fun r => decide (r.date_of_request ≤ b))
  | none, none => l

/-- search_name filter: icontains against the first or last name of the
user linked to the employee of the request; a request whose employee
reference is null or dangling matches nothing. -/
def nameMatches (emps : List Employee) (s : String) (r : Request) : Bool :=
  match r.employee with
  | none => false
  | some eid =>
    match findEmployee emps eid with
    | none => false
    | some e => icontains e.first_name s || icontains e.last_name s

def filterName (emps : List Employee) (q : QueryParams) (l : List Request) :
    List Request :=
  match q.search_name with
  | none => l
  | some s => if s == "" then l else l.filter (nameMatches emps s)

/-- Scope filter of the manager listing:
Request.objects.filter(employee__manager=manager). A request joins when
its employee resolves and that employee has the calling manager as
manager; null references fall out of the inner join. -/
def inManagerScope (emps : List Employee) (mgr : Employee) (r : Request) : Bool :=
  match r.employee with
  | none => false
  | some eid =>
    match findEmployee emps eid with
    | none => false
    | some e => e.manager == some mgr.id

/-- Rows matched by the admin listing before sorting: the status, date
and name filters applied to the whole table. -/
def adminMatches (db : List Request) (emps : List Employee)
    (q : QueryParams) : List Request :=
  filterName emps q (filterDates q (filterStatus q db))

/-- Rows matched by the manager listing before sorting: the subtree
scope filter, then the same status, date and name filters. -/
def managerMatches (db : List Request) (emps : List Employee)
    (manager : Employee) (q : QueryParams) : List Request :=
  filterName emps q (filterDates q (filterStatus q
    (db.filter (inManagerScope emps manager))))

/-- Rows matched by the employee listing: the own-requests scope filter
and the optional purpose_of_travel icontains filter (no sorting). -/
def employeeMatches (db : List Request) (employee : Employee)
    (q : QueryParams) : List Request :=
  let data := db.filter (fun r => r.employee == some employee.id)
  match q.purpose_of_travel with
  | none => data
  | some s =>
    if s == "" then data
    else data.filter (fun r => icontains r.purpose_of_travel s)

/-- views.listing_requests_admin: all requests, filtered by status, date
range and name, sorted, with a 404 when nothing remains. -/
def listing_requests_admin (db : List Request) (emps : List Employee)
    (q : QueryParams) : Outcome (List Request) :=
  let data := applySortOption q.sort_by (adminMatches db emps q)
  if data.isEmpty then Outcome.err 404 "No requests found"
  else Outcome.ok data

/-- views.listing_requests_manager: scope to the employees managed by the
caller, then the same filters and sort as the admin listing. -/
def listing_requests_manager (db : List Request) (emps : List Employee)
    (manager : Employee) (q : QueryParams) : Outcome (List Request) :=
  let data := applySortOption q.sort_by (managerMatches db emps manager q)
  if data.isEmpty then Outcome.err 404 "No requests found"
  else Outcome.ok data

/-- views.listing_requests_employee: own requests only, optional
purpose_of_travel icontains filter, 404 on an empty result; a manager
profile is turned away before any query runs. -/
def listing_requests_employee (db : List Request) (employee : Employee)
    (q : QueryParams) : Outcome (List Request) :=
  if employee.is_manager then Outcome.err 404 "Manager cannot make requests."
  else
    let data := employeeMatches db employee q
    if data.isEmpty then Outcome.err 404 "No requests found."
    else Outcome.ok data

/-- views.emp_request_form: the caller (an authenticated non-manager
employee) submits the create form. The manager of the caller is read
first; the mail recipient list is built from manager.user.email before
is_valid runs, so a null manager raises AttributeError there on every
payload. On success the serializer is saved with save kwargs
employee=caller, manager=caller.manager, status_of_request=submitted
(kwargs bypass validate), and the mail is sent to the manager. -/
def emp_request_form (db : List Request) (caller : Employee)
    (p : TravelPayload) (newId today : Nat) : ActionResult :=
  match caller.manager with
  | none =>
    { response := Outcome.crash "NoneType has no attribute user"
      db := db, mails := [] }
  | some mgrId =>
    if isValidCreate (stripReadOnly p) then
      let newReq := createFromPayload (stripReadOnly p) newId
        (some caller.id) (some mgrId) "submitted" today
      { response := Outcome.ok "Request Submitted"
        db := db ++ [newReq]
        mails := [{ subject := "Request submitted from employee-" ++ toString caller.id
                    message := "I have submitted a request for travel. Please look into the details. Thanks & Regards. - Admin"
                    recipient := mgrId }] }
    else
      { response := Outcome.err 400 "serializer errors", db := db, mails := [] }

/-- views.edit_request_employee: PATCH of an owned request. Ownership is
checked against the caller profile; a null or foreign employee reference
is turned away with 400. Validation errors come back with status 404 in
this view; a valid partial payload is merged and saved. -/
def edit_request_employee (db : List Request) (caller : Employee)
    (request_id : Nat) (p : TravelPayload) : ActionResult :=
  match findRequest db request_id with
  | none => { response := Outcome.err 404 "Request not found", db := db, mails := [] }
  | some r =>
    if r.employee != some caller.id then
      { response := Outcome.err 400 "You do not have permission to edit this request"
        db := db, mails := [] }
    else
      let vp := stripReadOnly p
      if isValidPartial vp then
        { response := Outcome.ok "edited"
          db := updateRequest db (applyPartial r vp), mails := [] }
      else
        { response := Outcome.err 404 "serializer errors", db := db, mails := [] }

/-- views.action_request_manager: approve, reject or revert a submitted
request. The view looks up the request and the action only; the identity
of the acting manager is never compared with the manager of the request.
For a revert the resubmission_request flag is set on the instance before
the save, so it persists with the status change. The mail recipient is
employee.user.email, read before is_valid, so a null employee reference
raises AttributeError once the action is accepted. The serializer data
(a valid status choice, a date, a nullable note) always validates. -/
def action_request_manager (db : List Request) (request_id : Nat)
    (action : Option String) (note : Option String) (today : Nat) : ActionResult :=
  match findRequest db request_id with
  | none => { response := Outcome.err 404 "Request not found", db := db, mails := [] }
  | some r =>
    if r.status_of_request == "submitted" then
      if action != some "approve" && action != some "reject" && action != some "revert" then
        { response := Outcome.err 404 "Invalid action", db := db, mails := [] }
      else
        let r1 :=
          if action == some "approve" then
            { r with status_of_request := "approved"
                     date_of_approval := some today
                     message_from_manager := note }
          else if action == some "reject" then
            { r with status_of_request := "rejected"
                     date_of_rejection := some today
                     message_from_manager := note }
          else
            { r with status_of_request := "reverted"
                     date_of_revert := some today
                     resubmission_request := true
                     message_from_manager := note }
        match r.employee with
        | none =>
          { response := Outcome.crash "NoneType has no attribute user"
            db := db, mails := [] }
        | some empId =>
          { response := Outcome.ok "status updated"
            db := updateRequest db r1
            mails := [{ subject := "Request " ++ r1.status_of_request
                        message := "Note:" ++ note.getD "None" ++ " Your request for travel has been " ++ r1.status_of_request ++ ". Thanks & Regards. - Admin"
                        recipient := empId }] }
    else
      { response := Outcome.err 400 "Cannot Proceed with the action!", db := db, mails := [] }

/-- views.action_request_employee, POST branch: submit or resubmit an
owned request. After the ownership and action guards, a request in
status reverted first has is_resubmitted set and saved on its own; the
mail is then built reading the stored status (still reverted), and the
branch that matches status reverted produces the plain submitted text
while the to_submit branch produces the resubmitted text. The recipient
comes from manager.user.email, so a null manager raises AttributeError
after the first save. Finally the status is saved as submitted. -/
def action_request_employee_post (db : List Request) (caller : Employee)
    (request_id : Nat) (action : Option String) : ActionResult :=
  match findRequest db request_id with
  | none => { response := Outcome.err 404 "Request not found", db := db, mails := [] }
  | some r =>
    if r.employee.isNone then
      { response := Outcome.err 400 "You do not have an employee owning this."
        db := db, mails := [] }
    else if r.employee != some caller.id then
      { response := Outcome.err 400 "You do not have permission to perform this action."
        db := db, mails := [] }
    else if action != some "submit" then
      { response := Outcome.err 400 "Invalid action", db := db, mails := [] }
    else if r.status_of_request != "to_submit" && r.status_of_request != "reverted" then
      { response := Outcome.err 400 "Invalid action", db := db, mails := [] }
    else
      let r1 :=
        if r.status_of_request == "reverted" then { r with is_resubmitted := true } else r
      let db1 :=
        if r.status_of_request == "reverted" then updateRequest db r1 else db
      match r.manager with
      | none =>
        { response := Outcome.crash "NoneType has no attribute user"
          db := db1, mails := [] }
      | some mgrId =>
        let mail : Mail :=
          if r.status_of_request == "reverted" then
            { subject := "Request submitted from employee-" ++ toString caller.id
              message := "I have submitted a request for travel. Please look into the details. Thanks & Regards. - Admin"
              recipient := mgrId }
          else
            { subject := "Request resubmitted from employee-" ++ toString caller.id
              message := "I have resubmitted a request for travel. Please look into the details. Thanks & Regards. - Admin"
              recipient := mgrId }
        let r2 := { r1 with status_of_request := "submitted" }
        { response := Outcome.ok "status updated"
          db := updateRequest db1 r2
          mails := [mail] }

/-- views.close_request_admin: close an approved request. The status
guard runs first, then the action guards; the mail recipient is
employee.user.email, read before is_valid, so a null employee reference
raises AttributeError once action close on an approved request is
reached. The serializer data (status closed, nullable note) always
validates, setting the status and the admin note. -/
def close_request_admin (db : List Request) (request_id : Nat)
    (action : Option String) (note : Option String) : ActionResult :=
  match findRequest db request_id with
  | none => { response := Outcome.err 404 "Request not found", db := db, mails := [] }
  | some r =>
    if r.status_of_request == "approved" then
      if !truthyStr action then
        { response := Outcome.err 404 "No action provided", db := db, mails := [] }
      else if action != some "close" then
        { response := Outcome.err 400 "Invalid action", db := db, mails := [] }
      else
        match r.employee with
        | none =>
          { response := Outcome.crash "NoneType has no attribute user"
            db := db, mails := [] }
        | some empId =>
          let r1 := { r with status_of_request := "closed"
                             message_from_admin := note }
          { response := Outcome.ok "Request status updated"
            db := updateRequest db r1
            mails := [{ subject := "Request submitted: Closed after Approval"
                        message := "Note:" ++ note.getD "None" ++ " Your request for travel has been closed. Thanks & Regards. - Admin"
                        recipient := empId }] }
    else
      { response := Outcome.err 400 "Request not approved yet!", db := db, mails := [] }

theorem length_insertSorted (le : Request → Request → Bool) (x : Request)
    (l : List Request) : (insertSorted le x l).length = l.length + 1 := by
  induction l with
  | nil => rfl
  | cons y ys ih =>
    simp only [insertSorted]
    split
    · simp
    · simp [ih]

theorem mem_insertSorted (le : Request → Request → Bool) (x a : Request)
    (l : List Request) : a ∈ insertSorted le x l ↔ a = x ∨ a ∈ l := by
  induction l with
  | nil => simp [insertSorted]
  | cons y ys ih =>
    simp only [insertSorted]
    split
    · simp [List.mem_cons]
    · simp [List.mem_cons, ih]
      tauto

theorem mem_sortRequests (le : Request → Request → Bool) (a : Request)
    (l : List Request) : a ∈ sortRequests le l ↔ a ∈ l := by
  induction l with
  | nil => simp [sortRequests]
  | cons y ys ih =>
    simp [sortRequests, mem_insertSorted, ih]

theorem isEmpty_insertSorted (le : Request → Request → Bool) (x : Request)
    (l : List Request) : (insertSorted le x l).isEmpty = false := by
  cases l with
  | nil => rfl
  | cons y ys =>
    simp only [insertSorted]
    split <;> rfl

theorem isEmpty_sortRequests (le : Request → Request → Bool)
    (l : List Request) : (sortRequests le l).isEmpty = l.isEmpty := by
  cases l with
  | nil => rfl
  | cons y ys => simp [sortRequests, isEmpty_insertSorted]

theorem mem_applySortOption (s : Option String) (a : Request)
    (l : List Request) : a ∈ applySortOption s l → a ∈ l := by
  cases s with
  | none => exact id
  | some str =>
    simp only [applySortOption]
    split_ifs <;>
      first
      | exact id
      | exact fun h => (mem_sortRequests _ _ _).mp h

theorem isEmpty_applySortOption (s : Option String) (l : List Request) :
    (applySortOption s l).isEmpty = l.isEmpty := by
  cases s with
  | none => rfl
  | some str =>
    simp only [applySortOption]
    split_ifs <;> simp [isEmpty_sortRequests]

theorem mem_of_filterStatus (q : QueryParams) (r : Request)
    (l : List Request) : r ∈ filterStatus q l → r ∈ l := by
  unfold filterStatus
  cases q.status with
  | none => exact id
  | some s =>
    dsimp only
    split_ifs with h
    · exact id
    · exact fun h2 => (List.mem_filter.mp h2).1

theorem mem_of_filterDates (q : QueryParams) (r : Request)
    (l : List Request) : r ∈ filterDates q l → r ∈ l := by
  unfold filterDates
  cases q.start_date with
  | some a =>
    cases q.end_date with
    | some b => exact fun h => (List.mem_filter.mp h).1
    | none => exact fun h => (List.mem_filter.mp h).1
  | none =>
    cases q.end_date with
    | some b => exact fun h => (List.mem_filter.mp h).1
    | none => exact id

theorem mem_of_filterName (emps : List Employee) (q : QueryParams)
    (r : Request) (l : List Request) : r ∈ filterName emps q l → r ∈ l := by
  unfold filterName
  cases q.search_name with
  | none => exact id
  | some s =>
    dsimp only
    split_ifs with h
    · exact id
    · exact fun h2 => (List.mem_filter.mp h2).1

/-- Fixture: manager A. -/
def empA : Employee :=
  { id := 1, user_id := 11, is_manager := true, manager := none
    employee_status := "active", first_name := "Alice", last_name := "Anders" }

/-- Fixture: manager B, unrelated to the requests of the subtree of A. -/
def empB : Employee :=
  { id := 2, user_id := 12, is_manager := true, manager := none
    employee_status := "active", first_name := "Bob", last_name := "Baker" }

/-- Fixture: employee E, managed by A. -/
def empE : Employee :=
  { id := 3, user_id := 13, is_manager := false, manager := some 1
    employee_status := "active", first_name := "Eve", last_name := "Eco" }

/-- Fixture: a non-manager employee whose manager reference is itself,
as the admin PATCH endpoint permits (it only checks that the referenced
Employee exists). -/
def selfEmp : Employee :=
  { id := 4, user_id := 14, is_manager := false, manager := some 4
    employee_status := "active", first_name := "Sam", last_name := "Self" }

/-- Fixture: a non-manager employee with a null manager reference. -/
def noMgrEmp : Employee :=
  { id := 5, user_id := 15, is_manager := false, manager := none
    employee_status := "active", first_name := "Nora", last_name := "None" }

def empsFix : List Employee := [empA, empB, empE, selfEmp, noMgrEmp]

/-- Fixture: the principal of manager B. -/
def pB : Principal := { is_authenticated := true, is_superuser := false, user_id := 12 }

/-- Fixture: a submitted request of employee E addressed to manager A. -/
def reqBase : Request :=
  { id := 10, employee := some 3, manager := some 1
    purpose_of_travel := "conference", mode_of_travel := "train"
    from_date := 10, to_date := 12, from_where := "Pune", to_where := "Delhi"
    lodging := false, lodging_info := none
    additional_request := none, additional_info := none
    message_from_manager := none, message_from_admin := none
    date_of_request := 5, date_of_approval := none
    date_of_rejection := none, date_of_revert := none
    resubmission_request := false, is_resubmitted := false
    status_of_request := "submitted" }

/-- Fixture: a complete, internally valid create-form payload. -/
def payloadOk : TravelPayload :=
  { purpose_of_travel := some "conference", mode_of_travel := some "train"
    from_date := some 10, to_date := some 12
    from_where := some "Pune", to_where := some "Delhi" }

/-- C1: the claim states that a manager other than the manager referenced
by a submitted request receives Forbidden and the request is unchanged.
Counterexample: manager B passes IsManager, is not the manager of
request 10 (whose manager is employee 1), yet the approve action
succeeds and rewrites the request. -/
theorem C1_other_manager_approve_succeeds :
    IsManager empsFix pB = true ∧
    reqBase.manager ≠ some empB.id ∧
    (action_request_manager [reqBase] 10 (some "approve") (some "ok") 20).response
      = Outcome.ok "status updated" ∧
    (action_request_manager [reqBase] 10 (some "approve") (some "ok") 20).db
      ≠ [reqBase] := by
  refine ⟨rfl, by decide, rfl, by decide⟩

/-- C1 (amended): for every principal that passes the IsManager
permission and every submitted request with a non-null employee
reference, each of the approve, reject and revert actions succeeds
regardless of whether the caller is the manager referenced by the
request; the view action_request_manager never compares the caller with
the manager field of the request, so no Forbidden response exists on
this path. -/
theorem C1_no_manager_match_check
    (db : List Request) (emps : List Employee) (p : Principal)
    (r : Request) (rid : Nat) (a : String) (note : Option String) (today : Nat)
    (hperm : IsManager emps p = true)
    (hfind : findRequest db rid = some r)
    (hstatus : r.status_of_request = "submitted")
    (hemp : r.employee.isSome)
    (ha : a = "approve" ∨ a = "reject" ∨ a = "revert") :
    (action_request_manager db rid (some a) note today).response
      = Outcome.ok "status updated" := by
  obtain ⟨eid, he⟩ := Option.isSome_iff_exists.mp hemp
  unfold action_request_manager
  rcases ha with ha | ha | ha <;> subst ha <;> simp [hfind, hstatus, he]

/-- Witness for C1_no_manager_match_check at the fixture input, for all
three actions. -/
theorem C1_no_manager_match_check_witness :
    (action_request_manager [reqBase] 10 (some "approve") none 20).response
      = Outcome.ok "status updated" ∧
    (action_request_manager [reqBase] 10 (some "reject") none 20).response
      = Outcome.ok "status updated" ∧
    (action_request_manager [reqBase] 10 (some "revert") none 20).response
      = Outcome.ok "status updated" :=
  ⟨C1_no_manager_match_check [reqBase] empsFix pB reqBase 10 "approve" none 20
     rfl rfl rfl rfl (Or.inl rfl),
   C1_no_manager_match_check [reqBase] empsFix pB reqBase 10 "reject" none 20
     rfl rfl rfl rfl (Or.inr (Or.inl rfl)),
   C1_no_manager_match_check [reqBase] empsFix pB reqBase 10 "revert" none 20
     rfl rfl rfl rfl (Or.inr (Or.inr rfl))⟩

/-- Fixture: a closed request of employee E, a state that is the source
of no action (closed is terminal). -/
def reqClosed : Request := { reqBase with id := 11, status_of_request := "closed" }

/-- C2: any lifecycle action attempted from a state that is not its
guarded source state returns a structured invalid-transition error and
leaves the store (hence status, every timestamp and every flag)
unchanged: approve/reject/revert outside submitted, submit outside
to_submit/reverted, close outside approved. -/
theorem C2_wrong_state_rejected_unchanged
    (db : List Request) (rid : Nat) (r : Request) (caller : Employee)
    (action note : Option String) (today : Nat)
    (hfind : findRequest db rid = some r) :
    (r.status_of_request ≠ "submitted" →
      action_request_manager db rid action note today =
        { response := Outcome.err 400 "Cannot Proceed with the action!"
          db := db, mails := [] }) ∧
    (r.employee = some caller.id →
     r.status_of_request ≠ "to_submit" → r.status_of_request ≠ "reverted" →
      action_request_employee_post db caller rid (some "submit") =
        { response := Outcome.err 400 "Invalid action"
          db := db, mails := [] }) ∧
    (r.status_of_request ≠ "approved" →
      close_request_admin db rid action note =
        { response := Outcome.err 400 "Request not approved yet!"
          db := db, mails := [] }) := by
  refine ⟨fun h1 => ?_, fun hown h2 h3 => ?_, fun h4 => ?_⟩
  · unfold action_request_manager
    simp [hfind, h1]
  · unfold action_request_employee_post
    simp [hfind, hown, h2, h3]
  · unfold close_request_admin
    simp [hfind, h4]

/-- Witness for C2_wrong_state_rejected_unchanged: every action applied
to the closed fixture request is rejected with the store unchanged. -/
theorem C2_wrong_state_witness :
    action_request_manager [reqClosed] 11 (some "approve") none 20 =
      { response := Outcome.err 400 "Cannot Proceed with the action!"
        db := [reqClosed], mails := [] } ∧
    action_request_employee_post [reqClosed] empE 11 (some "submit") =
      { response := Outcome.err 400 "Invalid action"
        db := [reqClosed], mails := [] } ∧
    close_request_admin [reqClosed] 11 (some "close") (some "n") =
      { response := Outcome.err 400 "Request not approved yet!"
        db := [reqClosed], mails := [] } := by
  have h := C2_wrong_state_rejected_unchanged [reqClosed] 11 reqClosed empE
    (some "approve") none 20 rfl
  have h2 := C2_wrong_state_rejected_unchanged [reqClosed] 11 reqClosed empE
    (some "close") (some "n") 20 rfl
  exact ⟨h.1 (by decide), h.2.1 rfl (by decide) (by decide), h2.2.2 (by decide)⟩

/-- C3: the claim states that after any successful create at the public
interface the employee and manager references of the stored Request
differ. In the code the serializer check for this is dead: employee and
manager are read_only fields, so validate never sees them, and the
create view injects them as save kwargs after validation. A non-manager
employee whose own manager reference points to itself (the admin PATCH
endpoint accepts such an assignment) submits a valid form and the stored
request has employee equal to manager; the last conjunct shows the
validator itself would have rejected the pair had it been consulted. -/
theorem C3_self_managed_employee_creates_self_request :
    (emp_request_form [] selfEmp payloadOk 100 50).response
      = Outcome.ok "Request Submitted" ∧
    ((emp_request_form [] selfEmp payloadOk 100 50).db.map
      (fun r => (r.employee, r.manager))) = [(some 4, some 4)] ∧
    travelValidate { payloadOk with employee := some 4, manager := some 4 } = false := by
  refine ⟨rfl, by decide, by decide⟩

/-- Fixture: a draft request of employee E with from_date 10, to_date 12. -/
def reqDraft : Request :=
  { reqBase with id := 20, status_of_request := "to_submit" }

/-- Fixture: a partial edit payload supplying only from_date 30. -/
def payloadFromOnly : TravelPayload := { from_date := some 30 }

/-- C4: the claim states that after any successful edit, including
partial edits, from_date is strictly below to_date. Counterexample: a
partial edit supplying only from_date 30 on a request whose stored
to_date is 12 succeeds, because the serializer compares the two dates
only when both appear in the payload, leaving from_date 30 against
to_date 12. -/
theorem C4_partial_edit_breaks_date_order :
    (edit_request_employee [reqDraft] empE 20 payloadFromOnly).response
      = Outcome.ok "edited" ∧
    ((edit_request_employee [reqDraft] empE 20 payloadFromOnly).db.map
      (fun r => (r.from_date, r.to_date))) = [(30, 12)] ∧
    ¬ (30 < 12) := by
  refine ⟨rfl, by decide, by decide⟩

/-- C4 (amended): after a successful create the stored request has
from_date strictly below to_date, and a create or edit whose payload
carries both dates with from_date at or above to_date is rejected; a
partial edit supplying at most one of the two dates is not compared
against the stored other bound. -/
theorem C4_date_order_checked_when_both_present
    (db : List Request) (caller : Employee) (p : TravelPayload)
    (newId today rid a b : Nat) :
    ((emp_request_form db caller p newId today).response
        = Outcome.ok "Request Submitted" →
      ∀ r ∈ (emp_request_form db caller p newId today).db,
        r ∈ db ∨ r.from_date < r.to_date) ∧
    (p.from_date = some a → p.to_date = some b → b ≤ a →
      (edit_request_employee db caller rid p).response ≠ Outcome.ok "edited") := by
  constructor
  · intro hok r hr
    unfold emp_request_form at hok hr
    cases hmgr : caller.manager with
    | none => simp [hmgr] at hok
    | some m =>
      simp only [hmgr] at hok hr
      by_cases hv : isValidCreate (stripReadOnly p) = true
      · simp only [hv, if_true] at hr
        rcases List.mem_append.mp hr with h | h
        · exact Or.inl h
        · right
          have hv2 : requiredOk (stripReadOnly p) = true ∧
              choicesOk (stripReadOnly p) = true ∧
              travelValidate (stripReadOnly p) = true := by
            unfold isValidCreate at hv
            simp only [Bool.and_eq_true] at hv
            exact ⟨hv.1.1, hv.1.2, hv.2⟩
          have hreq : requiredOk (stripReadOnly p) = true := hv2.1
          have hval : travelValidate (stripReadOnly p) = true := hv2.2.2
          have hfs : (stripReadOnly p).from_date.isSome = true := by
            unfold requiredOk at hreq
            simp only [Bool.and_eq_true] at hreq
            exact hreq.1.1.1.2
          have hts : (stripReadOnly p).to_date.isSome = true := by
            unfold requiredOk at hreq
            simp only [Bool.and_eq_true] at hreq
            exact hreq.1.1.2
          have hlt : (stripReadOnly p).from_date.getD 0 < (stripReadOnly p).to_date.getD 0 := by
            unfold travelValidate at hval
            simp only [Bool.and_eq_true, Bool.not_eq_true'] at hval
            have h1 := hval.1.1
            simp only [hfs, hts, Bool.true_and, decide_eq_false_iff_not, not_le] at h1
            exact h1
          have : r = createFromPayload (stripReadOnly p) newId
              (some caller.id) (some m) "submitted" today := by
            simpa using h
          rw [this]
          simpa [createFromPayload] using hlt
      · simp [hv] at hok
  · intro hfa hfb hba
    unfold edit_request_employee
    cases hfind : findRequest db rid with
    | none => simp
    | some r =>
      simp only
      split_ifs with hown hv
      · simp
      · exfalso
        have hval : travelValidate (stripReadOnly p) = true := by
          unfold isValidPartial at hv
          simp only [Bool.and_eq_true] at hv
          exact hv.2
        unfold travelValidate at hval
        simp only [Bool.and_eq_true, Bool.not_eq_true'] at hval
        have h1 := hval.1.1
        simp only [stripReadOnly, hfa, hfb] at h1
        simp only [Option.isSome_some, Bool.true_and, Option.getD_some,
          decide_eq_false_iff_not, not_le] at h1
        omega
      · simp

/-- Fixture: an edit payload with both dates supplied out of order. -/
def payloadBothBad : TravelPayload := { from_date := some 30, to_date := some 12 }

/-- Witness for C4_date_order_checked_when_both_present at fixture
inputs: the created fixture request respects the date order, and the
out-of-order two-date edit is rejected. -/
theorem C4_date_order_witness :
    (reqBase ∈ ([] : List Request) ∨
      (createFromPayload (stripReadOnly payloadOk) 100 (some 3) (some 1)
        "submitted" 50).from_date <
      (createFromPayload (stripReadOnly payloadOk) 100 (some 3) (some 1)
        "submitted" 50).to_date) ∧
    (edit_request_employee [reqDraft] empE 20 payloadBothBad).response
      ≠ Outcome.ok "edited" := by
  constructor
  · exact ((C4_date_order_checked_when_both_present [] empE payloadOk
      100 50 20 30 12).1 rfl
      (createFromPayload (stripReadOnly payloadOk) 100 (some 3) (some 1)
        "submitted" 50) (by decide)).imp (fun h => (by simp at h)) id
  · exact (C4_date_order_checked_when_both_present [reqDraft] empE payloadBothBad
      100 50 20 30 12).2 rfl rfl (by decide)

/-- Fixture: a request of employee E with lodging requested and lodging
details stored. -/
def reqLodging : Request :=
  { reqBase with id := 21, lodging := true, lodging_info := some "Hotel Blue" }

/-- Fixture: a partial edit payload clearing lodging_info only. -/
def payloadClearInfo : TravelPayload := { lodging_info := some "" }

/-- C5: the claim states that after any successful edit, including
partial edits, lodging true implies a non-empty lodging_info.
Counterexample: a partial edit supplying only an empty lodging_info on a
request whose stored lodging flag is true succeeds, because the
serializer checks lodging_info only when the lodging key itself is in
the payload, leaving lodging true with empty lodging_info. -/
theorem C5_partial_edit_clears_lodging_info :
    (edit_request_employee [reqLodging] empE 21 payloadClearInfo).response
      = Outcome.ok "edited" ∧
    ((edit_request_employee [reqLodging] empE 21 payloadClearInfo).db.map
      (fun r => (r.lodging, r.lodging_info))) = [(true, some "")] := by
  refine ⟨rfl, by decide⟩

/-- C5 (amended): after a successful create the stored request satisfies
lodging true implies a non-empty lodging_info, and a create or edit
whose payload sets lodging true with a missing or empty lodging_info is
rejected; a partial edit that does not mention the lodging key skips the
check against the stored lodging flag. -/
theorem C5_lodging_checked_when_mentioned
    (db : List Request) (caller : Employee) (p : TravelPayload)
    (newId today rid : Nat) :
    ((emp_request_form db caller p newId today).response
        = Outcome.ok "Request Submitted" →
      ∀ r ∈ (emp_request_form db caller p newId today).db,
        r ∈ db ∨ (r.lodging = true → r.lodging_info.getD "" ≠ "")) ∧
    (p.lodging = some true → p.lodging_info.getD "" = "" →
      (edit_request_employee db caller rid p).response ≠ Outcome.ok "edited") := by
  constructor
  · intro hok r hr
    unfold emp_request_form at hok hr
    cases hmgr : caller.manager with
    | none => simp [hmgr] at hok
    | some m =>
      simp only [hmgr] at hok hr
      by_cases hv : isValidCreate (stripReadOnly p) = true
      · simp only [hv, if_true] at hr
        rcases List.mem_append.mp hr with h | h
        · exact Or.inl h
        · right
          intro hlodg
          have hval : travelValidate (stripReadOnly p) = true := by
            unfold isValidCreate at hv
            simp only [Bool.and_eq_true] at hv
            exact hv.2
          have hr2 : r = createFromPayload (stripReadOnly p) newId
              (some caller.id) (some m) "submitted" today := by
            simpa using h
          have hpl : p.lodging = some true := by
            rw [hr2] at hlodg
            simp only [createFromPayload, stripReadOnly] at hlodg
            cases hc : p.lodging with
            | none => rw [hc] at hlodg; simp at hlodg
            | some b =>
              rw [hc] at hlodg
              simp only [Option.getD_some] at hlodg
              rw [hlodg]
          unfold travelValidate at hval
          simp only [Bool.and_eq_true, Bool.not_eq_true'] at hval
          have h2 := hval.1.2
          simp only [stripReadOnly, hpl] at h2
          simp only [beq_self_eq_true, Bool.true_and, Bool.and_eq_false_iff] at h2
          rw [hr2]
          simp only [createFromPayload, stripReadOnly]
          intro hbad
          rw [hbad] at h2
          simp at h2
      · simp [hv] at hok
  · intro hl hli
    unfold edit_request_employee
    cases hfind : findRequest db rid with
    | none => simp
    | some r =>
      simp only
      split_ifs with hown hv
      · simp
      · exfalso
        have hval : travelValidate (stripReadOnly p) = true := by
          unfold isValidPartial at hv
          simp only [Bool.and_eq_true] at hv
          exact hv.2
        unfold travelValidate at hval
        simp only [Bool.and_eq_true, Bool.not_eq_true'] at hval
        have h2 := hval.1.2
        simp only [stripReadOnly, hl, hli] at h2
        simp at h2
      · simp

/-- Fixture: an edit payload requesting lodging without details. -/
def payloadLodgingNoInfo : TravelPayload := { lodging := some true }

/-- Witness for C5_lodging_checked_when_mentioned at fixture inputs: the
created fixture request satisfies the lodging invariant, and an edit
setting lodging true without details is rejected. -/
theorem C5_lodging_witness :
    (reqBase ∈ ([] : List Request) ∨
      ((createFromPayload (stripReadOnly payloadOk) 100 (some 3) (some 1)
        "submitted" 50).lodging = true →
       (createFromPayload (stripReadOnly payloadOk) 100 (some 3) (some 1)
        "submitted" 50).lodging_info.getD "" ≠ "")) ∧
    (edit_request_employee [reqDraft] empE 20 payloadLodgingNoInfo).response
      ≠ Outcome.ok "edited" := by
  constructor
  · exact ((C5_lodging_checked_when_mentioned [] empE payloadOk
      100 50 20).1 rfl
      (createFromPayload (stripReadOnly payloadOk) 100 (some 3) (some 1)
        "submitted" 50) (by decide)).imp (fun h => (by simp at h)) id
  · exact (C5_lodging_checked_when_mentioned [reqDraft] empE payloadLodgingNoInfo
      100 50 20).2 rfl rfl

/-- Fixture: a reverted request of employee E awaiting resubmission. -/
def reqReverted : Request :=
  { reqBase with id := 30, status_of_request := "reverted"
                 resubmission_request := true, date_of_revert := some 15 }

/-- Fixture: a draft request of employee E never submitted before. -/
def reqToSubmit : Request :=
  { reqBase with id := 31, status_of_request := "to_submit" }

/-- C6: the claim states that a submit from reverted sets is_resubmitted,
moves the status to submitted, keeps resubmission_request true, and
sends the manager the resubmission text, while a submit from to_submit
sends the first-submission text. The state updates hold, but the two
message branches are swapped in the code: the reverted path builds the
plain submitted text and the to_submit path builds the resubmitted
text, as the evaluated mail subjects show. -/
theorem C6_resubmission_text_swapped :
    (action_request_employee_post [reqReverted] empE 30 (some "submit")).response
      = Outcome.ok "status updated" ∧
    (action_request_employee_post [reqReverted] empE 30 (some "submit")).db
      = [{ reqReverted with is_resubmitted := true
                            status_of_request := "submitted" }] ∧
    ((action_request_employee_post [reqReverted] empE 30 (some "submit")).mails.map
      Mail.subject) = ["Request submitted from employee-3"] ∧
    ((action_request_employee_post [reqToSubmit] empE 31 (some "submit")).mails.map
      Mail.subject) = ["Request resubmitted from employee-3"] := by
  refine ⟨rfl, by decide, by decide, by decide⟩

/-- C7: a create-form submission by an employee with a manager and a
payload the serializer accepts stores a new request whose employee is
the caller, whose manager is the manager of the caller, whose status is
forced to submitted, whose date_of_request is the creation date, and a
notification goes out addressed to the manager. -/
theorem C7_create_form_sets_fields
    (db : List Request) (caller : Employee) (p : TravelPayload)
    (newId today m : Nat)
    (hmgr : caller.manager = some m)
    (hvalid : isValidCreate (stripReadOnly p) = true) :
    (emp_request_form db caller p newId today).response
      = Outcome.ok "Request Submitted" ∧
    (emp_request_form db caller p newId today).db
      = db ++ [createFromPayload (stripReadOnly p) newId
                 (some caller.id) (some m) "submitted" today] ∧
    (createFromPayload (stripReadOnly p) newId
      (some caller.id) (some m) "submitted" today).employee = some caller.id ∧
    (createFromPayload (stripReadOnly p) newId
      (some caller.id) (some m) "submitted" today).manager = caller.manager ∧
    (createFromPayload (stripReadOnly p) newId
      (some caller.id) (some m) "submitted" today).status_of_request = "submitted" ∧
    (createFromPayload (stripReadOnly p) newId
      (some caller.id) (some m) "submitted" today).date_of_request = today ∧
    ((emp_request_form db caller p newId today).mails.map Mail.recipient) = [m] := by
  unfold emp_request_form
  rw [hmgr]
  dsimp only
  rw [if_pos hvalid]
  exact ⟨rfl, rfl, rfl, rfl, rfl, rfl, rfl⟩

/-- Witness for C7_create_form_sets_fields at the fixture inputs. -/
theorem C7_create_form_witness :
    (emp_request_form [] empE payloadOk 100 50).response
      = Outcome.ok "Request Submitted" ∧
    (emp_request_form [] empE payloadOk 100 50).db
      = [] ++ [createFromPayload (stripReadOnly payloadOk) 100
                 (some 3) (some 1) "submitted" 50] ∧
    (createFromPayload (stripReadOnly payloadOk) 100
      (some 3) (some 1) "submitted" 50).employee = some 3 ∧
    (createFromPayload (stripReadOnly payloadOk) 100
      (some 3) (some 1) "submitted" 50).manager = empE.manager ∧
    (createFromPayload (stripReadOnly payloadOk) 100
      (some 3) (some 1) "submitted" 50).status_of_request = "submitted" ∧
    (createFromPayload (stripReadOnly payloadOk) 100
      (some 3) (some 1) "submitted" 50).date_of_request = 50 ∧
    ((emp_request_form [] empE payloadOk 100 50).mails.map Mail.recipient) = [1] :=
  C7_create_form_sets_fields [] empE payloadOk 100 50 1 rfl rfl

/-- Fixture: an approved request whose employee reference was nulled
(on_delete=SET_NULL after the employee was removed). -/
def reqApprovedOrphan : Request :=
  { reqBase with id := 40, employee := none
                 status_of_request := "approved", date_of_approval := some 18 }

/-- C8: the claim states that no input lets an unhandled exception
escape, naming the create form under a null manager and the admin close
of a request with a null employee. Counterexample: both named inputs
produce an uncaught AttributeError (the recipient email is read off the
null reference before validation), which the framework surfaces as an
opaque 500, not a structured error. -/
theorem C8_null_reference_crashes :
    (emp_request_form [] noMgrEmp payloadOk 100 50).response
      = Outcome.crash "NoneType has no attribute user" ∧
    (close_request_admin [reqApprovedOrphan] 40 (some "close") (some "done")).response
      = Outcome.crash "NoneType has no attribute user" := by
  exact ⟨rfl, rfl⟩

/-- C8 (amended): every error of the taxonomy is caught and returned as
a structured response on the create-form and admin-close paths as long
as the dereferenced references are present: with a non-null manager the
create form never crashes, and with a non-null employee the close view
never crashes; with a null manager the create form always crashes, and
a close of an approved request with action close and a null employee
always crashes. -/
theorem C8_crash_characterization
    (db : List Request) (caller : Employee) (p : TravelPayload)
    (newId today rid : Nat) (r : Request) (action note : Option String)
    (hfind : findRequest db rid = some r) :
    (caller.manager ≠ none →
      ∀ s, (emp_request_form db caller p newId today).response ≠ Outcome.crash s) ∧
    (caller.manager = none →
      (emp_request_form db caller p newId today).response
        = Outcome.crash "NoneType has no attribute user") ∧
    (r.employee ≠ none →
      ∀ s, (close_request_admin db rid action note).response ≠ Outcome.crash s) ∧
    (r.employee = none → r.status_of_request = "approved" → action = some "close" →
      (close_request_admin db rid action note).response
        = Outcome.crash "NoneType has no attribute user") := by
  refine ⟨fun h1 s => ?_, fun h2 => ?_, fun h3 s => ?_, fun h4 h5 h6 => ?_⟩
  · unfold emp_request_form
    cases hmgr : caller.manager with
    | none => exact absurd hmgr h1
    | some m =>
      simp only
      split_ifs <;> simp
  · unfold emp_request_form
    rw [h2]
  · unfold close_request_admin
    rw [hfind]
    cases hemp : r.employee with
    | none => exact absurd hemp h3
    | some e =>
      simp only
      split_ifs <;> simp [hemp]
  · unfold close_request_admin
    rw [hfind]
    simp only [h5, h6, h4]
    simp [truthyStr]

/-- Witness for C8_crash_characterization at fixture inputs: with the
references present neither endpoint crashes, with them null both do. -/
theorem C8_crash_characterization_witness :
    (emp_request_form [reqBase] empE payloadOk 100 50).response
      ≠ Outcome.crash "NoneType has no attribute user" ∧
    (emp_request_form [reqApprovedOrphan] noMgrEmp payloadOk 100 50).response
      = Outcome.crash "NoneType has no attribute user" ∧
    (close_request_admin [reqBase] 10 (some "close") none).response
      ≠ Outcome.crash "NoneType has no attribute user" ∧
    (close_request_admin [reqApprovedOrphan] 40 (some "close") none).response
      = Outcome.crash "NoneType has no attribute user" := by
  have h1 := C8_crash_characterization [reqBase] empE payloadOk 100 50 10
    reqBase (some "close") none rfl
  have h2 := C8_crash_characterization [reqApprovedOrphan] noMgrEmp payloadOk
    100 50 40 reqApprovedOrphan (some "close") none rfl
  exact ⟨h1.1 (by decide) "NoneType has no attribute user",
         h2.2.1 rfl,
         h1.2.2.1 (by decide) "NoneType has no attribute user",
         h2.2.2.2 rfl rfl rfl⟩

theorem isEmpty_eq_false_of_ne_nil (l : List Request) (h : l ≠ []) :
    l.isEmpty = false := by
  cases l with
  | nil => exact absurd rfl h
  | cons x xs => rfl

/-- C9: each listing endpoint answers a filter combination matching zero
rows with the not-found error, and a combination matching at least one
row with the matched (and, where supported, sorted) rows as a success. -/
theorem C9_empty_listing_not_found
    (db : List Request) (emps : List Employee) (mgr emp : Employee)
    (q : QueryParams) (hnm : emp.is_manager = false) :
    (listing_requests_admin db emps q = Outcome.err 404 "No requests found" ↔
      adminMatches db emps q = []) ∧
    (adminMatches db emps q ≠ [] →
      listing_requests_admin db emps q =
        Outcome.ok (applySortOption q.sort_by (adminMatches db emps q))) ∧
    (listing_requests_manager db emps mgr q = Outcome.err 404 "No requests found" ↔
      managerMatches db emps mgr q = []) ∧
    (managerMatches db emps mgr q ≠ [] →
      listing_requests_manager db emps mgr q =
        Outcome.ok (applySortOption q.sort_by (managerMatches db emps mgr q))) ∧
    (listing_requests_employee db emp q = Outcome.err 404 "No requests found." ↔
      employeeMatches db emp q = []) ∧
    (employeeMatches db emp q ≠ [] →
      listing_requests_employee db emp q = Outcome.ok (employeeMatches db emp q)) := by
  have hA := isEmpty_applySortOption q.sort_by (adminMatches db emps q)
  have hM := isEmpty_applySortOption q.sort_by (managerMatches db emps mgr q)
  refine ⟨⟨fun h => ?_, fun h => ?_⟩, fun h => ?_, ⟨fun h => ?_, fun h => ?_⟩,
    fun h => ?_, ⟨fun h => ?_, fun h => ?_⟩, fun h => ?_⟩
  · by_cases he : adminMatches db emps q = []
    · exact he
    · unfold listing_requests_admin at h
      dsimp only at h
      rw [hA, isEmpty_eq_false_of_ne_nil _ he] at h
      simp at h
  · unfold listing_requests_admin
    dsimp only
    rw [hA, h]
    rfl
  · unfold listing_requests_admin
    dsimp only
    rw [hA, isEmpty_eq_false_of_ne_nil _ h]
    rfl
  · by_cases he : managerMatches db emps mgr q = []
    · exact he
    · unfold listing_requests_manager at h
      dsimp only at h
      rw [hM, isEmpty_eq_false_of_ne_nil _ he] at h
      simp at h
  · unfold listing_requests_manager
    dsimp only
    rw [hM, h]
    rfl
  · unfold listing_requests_manager
    dsimp only
    rw [hM, isEmpty_eq_false_of_ne_nil _ h]
    rfl
  · by_cases he : employeeMatches db emp q = []
    · exact he
    · unfold listing_requests_employee at h
      rw [hnm] at h
      simp only [Bool.false_eq_true, if_false] at h
      rw [isEmpty_eq_false_of_ne_nil _ he] at h
      simp at h
  · unfold listing_requests_employee
    rw [hnm]
    simp only [Bool.false_eq_true, if_false]
    rw [h]
    rfl
  · unfold listing_requests_employee
    rw [hnm]
    simp only [Bool.false_eq_true, if_false]
    rw [isEmpty_eq_false_of_ne_nil _ h]
    rfl

/-- Fixture: a query with every parameter absent. -/
def qNone : QueryParams := {}

/-- Witness for C9_empty_listing_not_found at fixture inputs: zero
matches give the not-found signal, one match gives a success list. -/
theorem C9_empty_listing_witness :
    listing_requests_admin [] empsFix qNone = Outcome.err 404 "No requests found" ∧
    listing_requests_admin [reqBase] empsFix qNone =
      Outcome.ok (applySortOption qNone.sort_by (adminMatches [reqBase] empsFix qNone)) ∧
    listing_requests_manager [reqBase] empsFix empA qNone =
      Outcome.ok (applySortOption qNone.sort_by (managerMatches [reqBase] empsFix empA qNone)) ∧
    listing_requests_employee [reqBase] empE qNone =
      Outcome.ok (employeeMatches [reqBase] empE qNone) := by
  have h0 := C9_empty_listing_not_found [] empsFix empA empE qNone rfl
  have h1 := C9_empty_listing_not_found [reqBase] empsFix empA empE qNone rfl
  exact ⟨h0.1.mpr rfl, h1.2.1 (by decide), h1.2.2.2.1 (by decide),
         h1.2.2.2.2.2 (by decide)⟩

/-- C10: a success list of the manager listing holds only requests whose
employee resolves to a subordinate of the calling manager, and a success
list of the employee listing holds only requests owned by the caller,
whatever the filters and sort say. -/
theorem C10_listing_scope
    (db : List Request) (emps : List Employee) (mgr emp : Employee)
    (q : QueryParams) (l l2 : List Request) (r r2 : Request) :
    (listing_requests_manager db emps mgr q = Outcome.ok l → r ∈ l →
      inManagerScope emps mgr r = true) ∧
    (listing_requests_employee db emp q = Outcome.ok l2 → r2 ∈ l2 →
      r2.employee = some emp.id) := by
  constructor
  · intro hok hr
    have hl : l = applySortOption q.sort_by (managerMatches db emps mgr q) := by
      unfold listing_requests_manager at hok
      dsimp only at hok
      by_cases he : (applySortOption q.sort_by (managerMatches db emps mgr q)).isEmpty = true
      · rw [if_pos he] at hok
        exact Outcome.noConfusion hok
      · rw [if_neg he] at hok
        injection hok with h
        exact h.symm
    rw [hl] at hr
    have h1 := mem_applySortOption _ _ _ hr
    unfold managerMatches at h1
    have h2 := mem_of_filterName _ _ _ _ h1
    have h3 := mem_of_filterDates _ _ _ h2
    have h4 := mem_of_filterStatus _ _ _ h3
    exact (List.mem_filter.mp h4).2
  · intro hok hr
    have hl : l2 = employeeMatches db emp q := by
      unfold listing_requests_employee at hok
      by_cases hm : emp.is_manager = true
      · rw [if_pos hm] at hok
        exact Outcome.noConfusion hok
      · rw [if_neg hm] at hok
        dsimp only at hok
        by_cases he : (employeeMatches db emp q).isEmpty = true
        · rw [if_pos he] at hok
          exact Outcome.noConfusion hok
        · rw [if_neg he] at hok
          injection hok with h
          exact h.symm
    rw [hl] at hr
    unfold employeeMatches at hr
    have h1 : r2 ∈ db.filter (fun r => r.employee == some emp.id) := by
      revert hr
      cases q.purpose_of_travel with
      | none => exact id
      | some s =>
        dsimp only
        split_ifs with h
        · exact id
        · exact fun h2 => (List.mem_filter.mp h2).1
    exact eq_of_beq (List.mem_filter.mp h1).2

/-- Witness for C10_listing_scope at fixture inputs. -/
theorem C10_listing_scope_witness :
    inManagerScope empsFix empA reqBase = true ∧
    reqBase.employee = some empE.id := by
  have h := C10_listing_scope [reqBase] empsFix empA empE qNone
    (applySortOption qNone.sort_by (managerMatches [reqBase] empsFix empA qNone))
    (employeeMatches [reqBase] empE qNone) reqBase reqBase
  exact ⟨h.1 (by decide) (by decide), h.2 (by decide) (by decide)⟩
